import Mathlib

/-!
Verification development for the terrajet Workspace Lifecycle Engine.

The definitions below are a shallow embedding of the Go sources:
`Operation` and its methods (client/operation file), `Workspace` and its
`ApplyAsync`/`Apply`/`Destroy`/`Refresh`/`Plan` methods (client/workspace
file), `FileProducer.TFState`/`MainTF` (pkg/client/files.go),
`WorkspaceStore.Workspace` (pkg/client/store.go) and the external adapter
`Observe` (terraform controller file).  Go maps are embedded as
association lists with overwrite-on-insert; machine time stamps are
embedded as `Nat`; methods that in Go mutate through a pointer are
embedded as explicit state passing; Go nil-pointer dereferences are
embedded as an explicit panic outcome.
-/

set_option autoImplicit false

namespace Terrajet

/-- A JSON-encodable value, plus a distinguished `unencodable` constructor
modelling Go values that `json.Marshal` rejects. -/
inductive JSValue where
  | str (s : String)
  | num (n : Int)
  | boolean (b : Bool)
  | null
  | unencodable
  deriving DecidableEq

/-- A Go `map[string]interface{}` embedded as an association list whose
observable behaviour is given by `mapGet`. -/
abbrev StringMap := List (String × JSValue)

/-- Lookup in an embedded Go map. -/
def mapGet : StringMap → String → Option JSValue
  | [], _ => none
  | (k, v) :: rest, k0 => if k = k0 then some v else mapGet rest k0

/-- Go map assignment `m[k] = v`: overwrite the binding if the key is
present, append it otherwise. -/
def mapSet : StringMap → String → JSValue → StringMap
  | [], k0, v0 => [(k0, v0)]
  | (k, v) :: rest, k0, v0 =>
      if k = k0 then (k0, v0) :: rest else (k, v) :: mapSet rest k0 v0

/-- The keys of an embedded Go map. -/
def mapKeys (m : StringMap) : List String := m.map Prod.fst

/-- `for k, v := range m { base[k] = v }`: fold Go map assignment of every
entry of `m` over `base`. -/
def mergeInto : StringMap → StringMap → StringMap
  | base, [] => base
  | base, e :: rest => mergeInto (mapSet base e.1 e.2) rest

/-- Whether `json.Marshal` accepts this value. -/
def valEncodable : JSValue → Bool
  | .unencodable => false
  | _ => true

/-- Whether `json.Marshal` accepts every value of the map. -/
def mapEncodable : StringMap → Bool
  | [] => true
  | e :: rest => valEncodable e.2 && mapEncodable rest

/-- `json.Marshal` on an embedded Go map: fails when some value is not
JSON-encodable, otherwise encodes the object (the encoding of an object is
kept as the object itself: an injective encoding). -/
def jsonMarshal (m : StringMap) : Option StringMap :=
  if mapEncodable m then some m else none

/-- First-defined choice on optional values. -/
def optOr : Option JSValue → Option JSValue → Option JSValue
  | some v, _ => some v
  | none, b => b

/-- `Operation` record: `{Type, StartTime, EndTime, err}` with time stamps
embedded as `Option Nat` (Go `*time.Time`). -/
structure Operation where
  type : String
  startTime : Option Nat
  endTime : Option Nat
  err : Option String
  deriving DecidableEq

/-- The zero `Operation`: the *Idle* lifecycle state. -/
def Operation.idle : Operation :=
  { type := "", startTime := none, endTime := none, err := none }

/-- *Running* state: started and not yet ended. -/
def Operation.isRunning (o : Operation) : Bool :=
  o.startTime.isSome && o.endTime.isNone

/-- *Finished* state: both time stamps set. -/
def Operation.isFinished (o : Operation) : Bool :=
  o.startTime.isSome && o.endTime.isSome

/-- *Idle* state: no time stamp set. -/
def Operation.isIdle (o : Operation) : Bool :=
  o.startTime.isNone && o.endTime.isNone

/-- The record computed by the body of `Operation.MarkStart` on its
receiver: set the type, set `StartTime` to now, clear `EndTime` and `err`. -/
def Operation.markStartBody (o : Operation) (t : String) (now : Nat) : Operation :=
  { o with type := t, startTime := some now, endTime := none, err := none }

/-- The record computed by the body of `Operation.MarkEnd` on its receiver:
set `EndTime` to now. -/
def Operation.markEndBody (o : Operation) (now : Nat) : Operation :=
  { o with endTime := some now }

/-- The record computed by the body of `Operation.Flush` on its receiver:
zero every field. -/
def Operation.flushBody (_ : Operation) : Operation :=
  { type := "", startTime := none, endTime := none, err := none }

/-- A Go method call whose receiver is declared *by value*, invoked on
`*p`: the body runs on a copy of the record and the copy is discarded, so
the record the caller sees is unchanged.  `MarkStart`, `MarkEnd` and
`Flush` are all declared with value receivers in the source. -/
def Operation.markStartCall (o : Operation) (t : String) (now : Nat) : Operation :=
  let _discarded := o.markStartBody t now
  o

/-- Caller-visible record after `o.MarkEnd()` (value receiver). -/
def Operation.markEndCall (o : Operation) (now : Nat) : Operation :=
  let _discarded := o.markEndBody now
  o

/-- Caller-visible record after `o.Flush()` (value receiver). -/
def Operation.flushCall (o : Operation) : Operation :=
  let _discarded := o.flushBody
  o

/-- Provider requirement inside `tfcli.TerraformSetup`: source and version. -/
structure ProviderRequirement where
  source : String
  version : String
  deriving DecidableEq

/-- `tfcli.TerraformSetup`: terraform version, provider requirement and
provider configuration block. -/
structure TerraformSetup where
  version : String
  requirement : ProviderRequirement
  configuration : StringMap
  deriving DecidableEq

/-- The Go zero value of `TerraformSetup` (unset struct field). -/
def TerraformSetup.zero : TerraformSetup :=
  { version := "", requirement := { source := "", version := "" }, configuration := [] }

/-- `json.InstanceObjectStateV4`. -/
structure InstanceObjectStateV4 where
  schemaVersion : Nat
  privateRaw : Option String
  attributesRaw : StringMap
  deriving DecidableEq

/-- `json.ResourceStateV4`. -/
structure ResourceStateV4 where
  mode : String
  type : String
  name : String
  providerConfig : String
  instances : List InstanceObjectStateV4
  deriving DecidableEq

/-- `json.StateV4` (the fields the embedded code reads or writes). -/
structure StateV4 where
  terraformVersion : String
  lineage : String
  resources : List ResourceStateV4
  deriving DecidableEq

/-- The reconciled resource (`resource.Terraformed`) as seen by the embedded
code: getter results are embedded as fields.  `stateAnno` models
`meta.GetState` (pkg/meta, outside src): per the spec it reads the
prior-state annotation of the resource. -/
structure Resource where
  uid : String
  name : String
  resourceType : String
  externalName : String
  stateAnno : String
  annos : List (String × String)
  wasDeleted : Bool
  parameters : StringMap
  observation : StringMap
  deriving DecidableEq

/-- Lookup in a Go `map[string]string`. -/
def annoGet : List (String × String) → String → Option String
  | [], _ => none
  | (k, v) :: rest, k0 => if k = k0 then some v else annoGet rest k0

/-- Outcome of a `terraform.tfstate` read-and-parse from disk. -/
inductive DiskState where
  | unreadable
  | unparsable
  | parsed (st : StateV4)
  deriving DecidableEq

/-- Environment of a synchronous provisioner invocation that afterwards
reads the state file: whether `cmd.Run` succeeded, the captured stderr,
and the disk state-file outcome. -/
structure RunEnv where
  runOk : Bool
  stderr : String
  disk : DiskState
  deriving DecidableEq

/-- One line of the plan JSON stream: whether it contains the
`"type":"change_summary"` marker, and the `(add, change)` counts its
unmarshalling yields (`none` models an unmarshal failure). -/
structure PlanLine where
  hasChangeSummaryMarker : Bool
  parsedChanges : Option (Nat × Nat)
  deriving DecidableEq

/-- Whether a stdout line contains the change-summary marker. -/
def lineIsChangeSummary (l : PlanLine) : Bool := l.hasChangeSummaryMarker

/-- Environment of a `Plan` invocation: `cmd.Run` outcome, stderr, and the
stdout lines. -/
structure PlanEnv where
  runOk : Bool
  stderr : String
  stdoutLines : List PlanLine
  deriving DecidableEq

/-- `Workspace`: the last operation pointer (`none` embeds a nil
`*Operation`) and the directory. -/
structure Workspace where
  lastOperation : Option Operation
  dir : String
  deriving DecidableEq

/-- Foreground result of `ApplyAsync` and `Destroy`. -/
inductive AsyncCallResult where
  /-- `w.LastOperation` is nil and a field of it is read: nil dereference. -/
  | panicNilOp
  /-- A nil `StartTime` pointer is dereferenced (formatting the busy error
  message or computing the deadline): runtime panic. -/
  | panicNilStart (opType : String)
  /-- The "operation ... is still running" error return. -/
  | busyErr (opType : String) (startedAt : Nat)
  /-- Returned nil after marking start and spawning the background task. -/
  | launched
  /-- `Destroy` only: returned nil without launching anything because the
  current operation already has type destroy. -/
  | okIdempotent
  deriving DecidableEq

/-- Result of the synchronous `Apply`. -/
inductive ApplyCallResult where
  | panicNilOp
  | panicNilStart (opType : String)
  | busyErr (opType : String) (startedAt : Nat)
  | execErr (stderr : String)
  | stateReadErr
  | unmarshalErr
  | ok (st : StateV4)
  deriving DecidableEq

/-- Result of `Refresh`. -/
inductive RefreshCallResult where
  | panicNilOp
  /-- An operation is still running: only the two flags are reported. -/
  | flags (isApplying isDestroying : Bool)
  /-- The finished operation carried an error: flags plus wrapped error. -/
  | opErr (isApplying isDestroying : Bool) (msg : String)
  /-- `kerrors.NewNotFound`: the distinguished resource-gone result. -/
  | resourceGone
  | execErr (stderr : String)
  | stateReadErr
  | unmarshalErr
  | ok (st : StateV4)
  deriving DecidableEq

/-- Result of `Plan`. -/
inductive PlanCallResult where
  | panicNilOp
  | busyErr (opType : String) (startedAt : Nat)
  | execErr (stderr : String)
  /-- "cannot find the change summary line in plan log". -/
  | noChangeSummary
  | unmarshalErr
  | ok (resourceExists upToDate : Bool)
  deriving DecidableEq

/-- `Workspace.ApplyAsync` foreground path: guard on `EndTime == nil`
(formatting the busy message dereferences `StartTime`), then
`MarkStart("apply")` (value receiver), then the deadline computation
dereferences `StartTime` again, then the background task is spawned. -/
def Workspace.applyAsync (w : Workspace) (now : Nat) : AsyncCallResult × Workspace :=
  match w.lastOperation with
  | none => (.panicNilOp, w)
  | some op =>
    match op.endTime with
    | none =>
      match op.startTime with
      | none => (.panicNilStart op.type, w)
      | some s => (.busyErr op.type s, w)
    | some _ =>
      let op' := op.markStartCall "apply" now
      match op'.startTime with
      | none => (.panicNilStart op'.type, w)
      | some _ => (.launched, { w with lastOperation := some op' })

/-- `Workspace.Apply` (synchronous): same guard as `ApplyAsync`, then run
the provisioner and read `terraform.tfstate` back. -/
def Workspace.apply (w : Workspace) (env : RunEnv) : ApplyCallResult × Workspace :=
  match w.lastOperation with
  | none => (.panicNilOp, w)
  | some op =>
    match op.endTime with
    | none =>
      match op.startTime with
      | none => (.panicNilStart op.type, w)
      | some s => (.busyErr op.type s, w)
    | some _ =>
      if env.runOk then
        match env.disk with
        | .unreadable => (.stateReadErr, w)
        | .unparsable => (.unmarshalErr, w)
        | .parsed st => (.ok st, w)
      else (.execErr env.stderr, w)

/-- `Workspace.Destroy`: idempotent on type destroy; busy guard on
`EndTime == nil` for any other type; otherwise `MarkStart("destroy")` and
spawn the background task. -/
def Workspace.destroy (w : Workspace) (now : Nat) : AsyncCallResult × Workspace :=
  match w.lastOperation with
  | none => (.panicNilOp, w)
  | some op =>
    if op.type = "destroy" then (.okIdempotent, w)
    else if op.endTime.isNone then
      match op.startTime with
      | none => (.panicNilStart op.type, w)
      | some s => (.busyErr op.type s, w)
    else
      let op' := op.markStartCall "destroy" now
      match op'.startTime with
      | none => (.panicNilStart op'.type, w)
      | some _ => (.launched, { w with lastOperation := some op' })

/-- The provisioner-invoking tail of `Refresh`: run `apply -refresh-only`
and read the state file back. -/
def runRefreshProc (env : RunEnv) (w : Workspace) : RefreshCallResult × Workspace :=
  if env.runOk then
    match env.disk with
    | .unreadable => (.stateReadErr, w)
    | .unparsable => (.unmarshalErr, w)
    | .parsed st => (.ok st, w)
  else (.execErr env.stderr, w)

/-- `Workspace.Refresh`: report a running operation's flags; otherwise
defer `Flush` (value receiver), report a finished operation's error, report
resource-gone after a finished destroy, and in the remaining cases invoke
the provisioner in refresh-only mode. -/
def Workspace.refresh (w : Workspace) (env : RunEnv) : RefreshCallResult × Workspace :=
  match w.lastOperation with
  | none => (.panicNilOp, w)
  | some op =>
    match op.startTime with
    | some _ =>
      match op.endTime with
      | none => (.flags (op.type == "apply") (op.type == "destroy"), w)
      | some _ =>
        let w' := { w with lastOperation := some op.flushCall }
        match op.err with
        | some e =>
            (.opErr (op.type == "apply") (op.type == "destroy")
              (op.type ++ " operation failed: " ++ e), w')
        | none =>
            if op.type = "destroy" then (.resourceGone, w')
            else runRefreshProc env w'
    | none => runRefreshProc env w

/-- `Workspace.Plan`: busy guard `StartTime != nil && EndTime == nil`, run
the provisioner, locate the first stdout line containing the
change-summary marker, unmarshal it and report
`Exists = (add == 0)`, `UpToDate = (change == 0)`. -/
def Workspace.plan (w : Workspace) (env : PlanEnv) : PlanCallResult × Workspace :=
  match w.lastOperation with
  | none => (.panicNilOp, w)
  | some op =>
    match op.startTime, op.endTime with
    | some s, none => (.busyErr op.type s, w)
    | _, _ =>
      if env.runOk then
        match env.stdoutLines.find? lineIsChangeSummary with
        | none => (.noChangeSummary, w)
        | some l =>
          match l.parsedChanges with
          | none => (.unmarshalErr, w)
          | some (a, c) => (.ok (a == 0) (c == 0), w)
      else (.execErr env.stderr, w)

/-- `FileProducer`: the borrowed resource, the setup, and the cached
parameter and observation maps. -/
structure FileProducer where
  resource : Resource
  setup : TerraformSetup
  parameters : StringMap
  observation : StringMap
  deriving DecidableEq

/-- `NewFileProducer(tr)`: caches the getter results; the `Setup` field is
never assigned and keeps its Go zero value. -/
def NewFileProducer (tr : Resource) : FileProducer :=
  { resource := tr, setup := TerraformSetup.zero,
    parameters := tr.parameters, observation := tr.observation }

/-- The designated annotation from which `privateRaw` is lifted verbatim
(`tfcli.AnnotationKeyPrivateRawAttribute`; the constant lives outside src,
its exact text is irrelevant to the claims). -/
def annoKeyPrivateRaw : String := "tf.crossplane.io/state-private-raw"

/-- The merged attribute map `TFState` builds: parameters, then
observation, then `id = externalName`, each later write overwriting. -/
def mergedAttrs (fp : FileProducer) : StringMap :=
  mapSet (mergeInto (mergeInto [] fp.parameters) fp.observation)
    "id" (JSValue.str fp.resource.externalName)

/-- `FileProducer.TFState`: marshal the merged attributes, lift
`privateRaw` from the designated annotation, and embed exactly one managed
resource with exactly one instance at schema version 0. -/
def FileProducer.tfState (fp : FileProducer) : Except String StateV4 :=
  match jsonMarshal (mergedAttrs fp) with
  | none => Except.error "cannot marshal produced state attributes"
  | some attr =>
      Except.ok
        { terraformVersion := fp.setup.version
          lineage := fp.resource.uid
          resources :=
            [{ mode := "managed"
               type := fp.resource.resourceType
               name := fp.resource.name
               providerConfig :=
                 "provider[\"registry.terraform.io/" ++ fp.setup.requirement.source ++ "\"]"
               instances :=
                 [{ schemaVersion := 0
                    privateRaw := annoGet fp.resource.annos annoKeyPrivateRaw
                    attributesRaw := attr }] }] }

/-- The `attributesRaw` of the single instance of the single resource of a
successfully produced state. -/
def tfStateAttrs (fp : FileProducer) : Option StringMap :=
  match fp.tfState with
  | .error _ => none
  | .ok st =>
    match st.resources with
    | [r] =>
      match r.instances with
      | [i] => some i.attributesRaw
      | _ => none
    | _ => none

/-- The content of `main.tf.json` as structured data: the
`required_providers` block, the `provider` block and the single resource
block. -/
structure MainTFConfig where
  requiredProviderSource : String
  requiredProviderVersion : String
  providerConfiguration : StringMap
  resourceType : String
  resourceName : String
  resourceParameters : StringMap
  deriving DecidableEq

/-- `FileProducer.MainTF`: first assigns
`fp.parameters["prevent_destroy"] = !WasDeleted(resource)` — a write to the
producer's cached map — then builds the configuration from `fp.Setup` and
the updated parameters.  The second component is the producer as left
behind by the call. -/
def FileProducer.mainTF (fp : FileProducer) : MainTFConfig × FileProducer :=
  let fp' := { fp with
    parameters := mapSet fp.parameters "prevent_destroy"
      (JSValue.boolean (!fp.resource.wasDeleted)) }
  ({ requiredProviderSource := fp'.setup.requirement.source
     requiredProviderVersion := fp'.setup.requirement.version
     providerConfiguration := fp'.setup.configuration
     resourceType := fp'.resource.resourceType
     resourceName := fp'.resource.name
     resourceParameters := fp'.parameters }, fp')

/-- `WorkspaceStore`: the immutable setup and the registry keyed by
resource UID. -/
structure WorkspaceStore where
  setup : TerraformSetup
  registry : List (String × Workspace)
  deriving DecidableEq

/-- Registry lookup (`sync.Map.Load`). -/
def registryGet : List (String × Workspace) → String → Option Workspace
  | [], _ => none
  | (k, w) :: rest, k0 => if k = k0 then some w else registryGet rest k0

/-- `WorkspaceStore.Workspace(tr, enq)`: build a `FileProducer` via
`NewFileProducer`, write `main.tf.json` from `fp.MainTF()`, and
`LoadOrStore` a workspace built as `&Workspace{Enqueue: enq, dir: dir}` —
its `LastOperation` field is never assigned and stays nil.  Returns the
acquired workspace, the updated store, and the written configuration. -/
def WorkspaceStore.acquire (ws : WorkspaceStore) (tr : Resource) :
    Workspace × WorkspaceStore × MainTFConfig :=
  let fp := NewFileProducer tr
  let cfg := (fp.mainTF).1
  match registryGet ws.registry tr.uid with
  | some w => (w, ws, cfg)
  | none =>
      let w : Workspace := { lastOperation := none, dir := "/tmp/" ++ tr.uid }
      (w, { ws with registry := (tr.uid, w) :: ws.registry }, cfg)

/-- Result record of the tf adapter's `Observe` (`conversion.Adapter`,
outside src): existence, up-to-dateness, late-initialization and
connection details. -/
structure TfObserveResult where
  resourceExists : Bool
  upToDate : Bool
  lateInitialized : Bool
  connDetails : List (String × String)
  deriving DecidableEq

/-- `managed.ExternalObservation` (the fields the adapter fills). -/
structure ExternalObservation where
  resourceExists : Bool
  resourceUpToDate : Bool
  resourceLateInitialized : Bool
  connectionDetails : List (String × String)
  deriving DecidableEq

/-- What one call of `external.Observe` did: its returned value or error,
whether `e.tf.Observe` (hence the workspace) was touched, and whether the
Available condition was set on the resource. -/
structure ObserveStep where
  result : Except String ExternalObservation
  tfObserveCalled : Bool
  conditionSetAvailable : Bool

/-- `external.Observe`: if external name and prior-state annotation are
both empty, report non-existence without touching the workspace; otherwise
delegate to the tf adapter (whose outcome is the `tfRes` argument), wrap
its error, and mark the resource Available when it exists. -/
def externalObserve (tr : Resource) (tfRes : Except String TfObserveResult) : ObserveStep :=
  if tr.externalName = "" ∧ tr.stateAnno = "" then
    { result := Except.ok
        { resourceExists := false, resourceUpToDate := false
          resourceLateInitialized := false, connectionDetails := [] }
      tfObserveCalled := false
      conditionSetAvailable := false }
  else
    match tfRes with
    | .error e =>
        { result := Except.error ("cannot check if resource exists: " ++ e)
          tfObserveCalled := true
          conditionSetAvailable := false }
    | .ok r =>
        { result := Except.ok
            { resourceExists := r.resourceExists
              resourceUpToDate := r.upToDate
              resourceLateInitialized := r.lateInitialized
              connectionDetails := r.connDetails }
          tfObserveCalled := true
          conditionSetAvailable := r.resourceExists }

/-- Example: an operation in the Running state with type apply. -/
def runningApplyOp : Operation :=
  { type := "apply", startTime := some 1, endTime := none, err := none }

/-- Example: an operation in the Finished state with type destroy and no
error. -/
def finishedDestroyOp : Operation :=
  { type := "destroy", startTime := some 1, endTime := some 2, err := none }

/-- Example: an operation in the Finished state with type apply and no
error. -/
def finishedApplyOp : Operation :=
  { type := "apply", startTime := some 1, endTime := some 2, err := none }

/-- Example resource used by concrete evaluations. -/
def trEx : Resource :=
  { uid := "uid-1", name := "example", resourceType := "null_resource"
    externalName := "ext-1", stateAnno := "", annos := []
    wasDeleted := false
    parameters := [("a", JSValue.num 1)]
    observation := [("a", JSValue.num 2), ("b", JSValue.str "x")] }

/-- Example file producer over `trEx`. -/
def fpEx : FileProducer := NewFileProducer trEx

/-- Example parsed state file. -/
def stEx : StateV4 :=
  { terraformVersion := "1.0.3", lineage := "uid-1", resources := [] }

/-- Example provisioner environment: run succeeds and the state file
parses. -/
def envOkEx : RunEnv := { runOk := true, stderr := "", disk := .parsed stEx }

/-- Example store whose setup is not the zero value. -/
def wsEx : WorkspaceStore :=
  { setup :=
      { version := "1.0.3"
        requirement := { source := "hashicorp/null", version := "3.1.0" }
        configuration := [("region", JSValue.str "us-east-1")] }
    registry := [] }

/-- Example: an operation in the Running state with type destroy. -/
def runningDestroyOp : Operation :=
  { type := "destroy", startTime := some 1, endTime := none, err := none }

/-- Example workspace holding an Idle (zero) operation. -/
def wIdleEx : Workspace :=
  { lastOperation := some Operation.idle, dir := "/tmp/uid-1" }

/-- Example workspace holding a finished apply operation. -/
def wFinApplyEx : Workspace :=
  { lastOperation := some finishedApplyOp, dir := "/tmp/uid-1" }

/-- Example workspace holding a running apply operation. -/
def wRunApplyEx : Workspace :=
  { lastOperation := some runningApplyOp, dir := "/tmp/uid-1" }

/-- Example workspace holding a finished destroy operation without error. -/
def wFinDestroyEx : Workspace :=
  { lastOperation := some finishedDestroyOp, dir := "/tmp/uid-1" }

/-- Example workspace holding a running destroy operation. -/
def wRunDestroyEx : Workspace :=
  { lastOperation := some runningDestroyOp, dir := "/tmp/uid-1" }

/-- Example resource with empty external name and empty prior-state
annotation value. -/
def trEmptyEx : Resource :=
  { trEx with externalName := "" }

/-- Example plan environment with empty stdout. -/
def planEnvEx : PlanEnv := { runOk := true, stderr := "", stdoutLines := [] }

theorem mapGet_mapSet_self (m : StringMap) (k : String) (v : JSValue) :
    mapGet (mapSet m k v) k = some v := by
  induction m with
  | nil => simp [mapSet, mapGet]
  | cons e rest ih =>
      obtain ⟨k1, v1⟩ := e
      by_cases h : k1 = k <;> simp [mapSet, mapGet, h, ih]

theorem mapGet_mapSet_ne (m : StringMap) (k0 k : String) (v : JSValue)
    (h : k0 ≠ k) : mapGet (mapSet m k0 v) k = mapGet m k := by
  induction m with
  | nil => simp [mapSet, mapGet, h]
  | cons e rest ih =>
      obtain ⟨k1, v1⟩ := e
      by_cases h1 : k1 = k0 <;> simp [mapSet, mapGet, h, h1, ih]

theorem mapGet_eq_none_of_not_mem (m : StringMap) (k : String)
    (h : k ∉ mapKeys m) : mapGet m k = none := by
  induction m with
  | nil => simp [mapGet]
  | cons e rest ih =>
      obtain ⟨k1, v1⟩ := e
      simp only [mapKeys, List.map_cons, List.mem_cons] at h
      push_neg at h
      simp [mapGet, Ne.symm h.1, ih (by simpa [mapKeys] using h.2)]

theorem optOr_none (a : Option JSValue) : optOr a none = a := by
  cases a <;> simp [optOr]

theorem mapGet_mergeInto (m : StringMap) (base : StringMap) (k : String)
    (h : (mapKeys m).Nodup) :
    mapGet (mergeInto base m) k = optOr (mapGet m k) (mapGet base k) := by
  induction m generalizing base with
  | nil => simp [mergeInto, mapGet, optOr]
  | cons e rest ih =>
      obtain ⟨k1, v1⟩ := e
      simp only [mapKeys, List.map_cons, List.nodup_cons] at h
      rw [show mergeInto base ((k1, v1) :: rest) = mergeInto (mapSet base k1 v1) rest from rfl]
      rw [ih (mapSet base k1 v1) (by simpa [mapKeys] using h.2)]
      by_cases hk : k1 = k
      · subst hk
        rw [mapGet_eq_none_of_not_mem rest k1 (by simpa [mapKeys] using h.1)]
        simp [mapGet, mapGet_mapSet_self, optOr]
      · rw [mapGet_mapSet_ne base k1 k v1 hk]
        simp [mapGet, hk]

theorem mapEncodable_mapSet (m : StringMap) (k : String) (v : JSValue)
    (hm : mapEncodable m = true) (hv : valEncodable v = true) :
    mapEncodable (mapSet m k v) = true := by
  induction m with
  | nil => simp [mapSet, mapEncodable, hv]
  | cons e rest ih =>
      obtain ⟨k1, v1⟩ := e
      simp only [mapEncodable, Bool.and_eq_true] at hm
      by_cases h1 : k1 = k <;>
        simp [mapSet, mapEncodable, h1, hv, hm.1, hm.2, ih hm.2]

theorem mapEncodable_mergeInto (m : StringMap) : ∀ base : StringMap,
    mapEncodable base = true → mapEncodable m = true →
    mapEncodable (mergeInto base m) = true := by
  induction m with
  | nil =>
      intro base hb _
      simpa [mergeInto] using hb
  | cons e rest ih =>
      intro base hb hm
      obtain ⟨k1, v1⟩ := e
      simp only [mapEncodable, Bool.and_eq_true] at hm
      exact ih (mapSet base k1 v1) (mapEncodable_mapSet base k1 v1 hb hm.1) hm.2

/-- Claim C1: the spec's operation state machine requires `MarkStart` to
take Idle to Running, `MarkEnd` to take Running to Finished and `Flush` to
take Finished to Idle, each visibly to subsequent reads of the same
operation.  The three methods are declared with *value receivers*, so each
call mutates only a discarded copy: the caller-visible record after
starting the idle operation is still idle (though the body's result would
be running), after ending a running operation still running, and after
flushing a finished operation still finished. -/
theorem operationTransitionsLostByValueReceiver :
    Operation.markStartCall Operation.idle "apply" 1 = Operation.idle ∧
    (Operation.markStartBody Operation.idle "apply" 1).isRunning = true ∧
    Operation.markEndCall runningApplyOp 2 = runningApplyOp ∧
    (runningApplyOp.markEndBody 2).isFinished = true ∧
    Operation.flushCall finishedDestroyOp = finishedDestroyOp ∧
    finishedDestroyOp.isFinished = true ∧
    finishedDestroyOp.isIdle = false :=
  ⟨rfl, rfl, rfl, rfl, rfl, rfl, rfl⟩

/-- Claim C4: the `attributesRaw` produced by `TFState` is the JSON
encoding of the merge of the parameters, then the observation, then
`id = externalName`, with a later write overwriting an earlier one: at
every key, the merged map holds the id value on key `id`, otherwise the
observation's value when present, otherwise the parameter's value. -/
theorem tfStateAttributesMerge (fp : FileProducer) (k : String)
    (hP : mapEncodable fp.parameters = true)
    (hO : mapEncodable fp.observation = true)
    (hNP : (mapKeys fp.parameters).Nodup)
    (hNO : (mapKeys fp.observation).Nodup) :
    tfStateAttrs fp = jsonMarshal (mergedAttrs fp) ∧
    mapGet (mergedAttrs fp) k =
      (if k = "id" then some (JSValue.str fp.resource.externalName)
       else optOr (mapGet fp.observation k) (mapGet fp.parameters k)) := by
  have hEnc : mapEncodable (mergedAttrs fp) = true := by
    apply mapEncodable_mapSet
    · exact mapEncodable_mergeInto fp.observation (mergeInto [] fp.parameters)
        (mapEncodable_mergeInto fp.parameters [] rfl hP) hO
    · rfl
  constructor
  · simp [tfStateAttrs, FileProducer.tfState, jsonMarshal, hEnc]
  · by_cases hk : k = "id"
    · subst hk
      simp [mergedAttrs, mapGet_mapSet_self]
    · rw [mergedAttrs, mapGet_mapSet_ne _ _ _ _ (Ne.symm hk)]
      rw [mapGet_mergeInto fp.observation _ k hNO]
      rw [mapGet_mergeInto fp.parameters [] k hNP]
      simp [mapGet, optOr_none, hk]

/-- Witness for C4 at a concrete producer and key: the observation's value
for key `a` wins over the parameter's. -/
theorem tfStateAttributesMergeWitness :
    tfStateAttrs fpEx = jsonMarshal (mergedAttrs fpEx) ∧
    mapGet (mergedAttrs fpEx) "a" =
      (if "a" = "id" then some (JSValue.str fpEx.resource.externalName)
       else optOr (mapGet fpEx.observation "a") (mapGet fpEx.parameters "a")) :=
  tfStateAttributesMerge fpEx "a" rfl rfl (by decide) (by decide)

/-- Claim C2: the spec admits `ApplyAsync`, `Apply` and `Destroy` from the
Idle as well as the Finished state, with `Busy` exactly in the Running
state.  The code guards only on `EndTime == nil`, so the Idle (zero)
operation is sent into the still-running error branch, where formatting
the message dereferences the nil `StartTime` and panics; a Finished
operation does start, and a Running one gets the busy error. -/
theorem idleOperationRejectedByApplyGuards :
    (wIdleEx.applyAsync 5).1 = AsyncCallResult.panicNilStart "" ∧
    (wIdleEx.apply envOkEx).1 = ApplyCallResult.panicNilStart "" ∧
    (wIdleEx.destroy 5).1 = AsyncCallResult.panicNilStart "" ∧
    (wFinApplyEx.applyAsync 5).1 = AsyncCallResult.launched ∧
    (wFinApplyEx.destroy 5).1 = AsyncCallResult.launched ∧
    (wRunApplyEx.applyAsync 5).1 = AsyncCallResult.busyErr "apply" 1 ∧
    (wRunApplyEx.apply envOkEx).1 = ApplyCallResult.busyErr "apply" 1 ∧
    (wRunApplyEx.destroy 5).1 = AsyncCallResult.busyErr "apply" 1 :=
  ⟨rfl, rfl, by decide, rfl, by decide, rfl, rfl, by decide⟩

/-- Claim C3: after a finished error-free destroy, `Refresh` returns the
resource-gone result, but the deferred `Flush` has a value receiver and
does not clear the operation: the workspace is returned unchanged and the
very next `Refresh` returns resource-gone again instead of proceeding to a
normal provisioner-invoking refresh. -/
theorem refreshAfterDestroyGoneTwice :
    (wFinDestroyEx.refresh envOkEx).1 = RefreshCallResult.resourceGone ∧
    (wFinDestroyEx.refresh envOkEx).2 = wFinDestroyEx ∧
    (((wFinDestroyEx.refresh envOkEx).2).refresh envOkEx).1 =
      RefreshCallResult.resourceGone :=
  ⟨by decide, by decide, by decide⟩

/-- Claim C5: when the last operation is not running and the provisioner
plan run succeeds, `Plan` returns `Exists = (add == 0)` and
`UpToDate = (change == 0)` read off the first change-summary line of the
JSON stream, and fails with the parse error when no change-summary line is
present. -/
theorem planReadsChangeSummary (op : Operation) (lines : List PlanLine)
    (l : PlanLine) (a c : Nat) (h : op.isRunning = false) :
    ((lines.find? lineIsChangeSummary = some l → l.parsedChanges = some (a, c) →
      (Workspace.plan { lastOperation := some op, dir := "/tmp/uid-1" }
        { runOk := true, stderr := "", stdoutLines := lines }).1 =
        PlanCallResult.ok (a == 0) (c == 0)) ∧
    (lines.find? lineIsChangeSummary = none →
      (Workspace.plan { lastOperation := some op, dir := "/tmp/uid-1" }
        { runOk := true, stderr := "", stdoutLines := lines }).1 =
        PlanCallResult.noChangeSummary)) := by
  have h' : op.startTime = none ∨ ∃ x, op.endTime = some x := by
    rcases hst : op.startTime with _ | s
    · exact Or.inl rfl
    · rcases het : op.endTime with _ | x
      · rw [Operation.isRunning, hst, het] at h
        simp at h
      · exact Or.inr ⟨x, rfl⟩

  constructor
  · intro h1 h2
    rcases h' with hst | hx
    · simp [Workspace.plan, hst, h1, h2]
    · obtain ⟨x, het⟩ := hx
      rcases hst : op.startTime with _ | s <;>
        simp [Workspace.plan, hst, het, h1, h2]
  · intro h1
    rcases h' with hst | hx
    · simp [Workspace.plan, hst, h1]
    · obtain ⟨x, het⟩ := hx
      rcases hst : op.startTime with _ | s <;>
        simp [Workspace.plan, hst, het, h1]

/-- Witness for C5 at a concrete idle operation and a stdout whose first
change-summary line carries `add = 0`, `change = 1`. -/
theorem planReadsChangeSummaryWitness :
    (([⟨true, some (0, 1)⟩] : List PlanLine).find? lineIsChangeSummary =
        some ⟨true, some (0, 1)⟩ →
      (⟨true, some (0, 1)⟩ : PlanLine).parsedChanges = some (0, 1) →
      (Workspace.plan { lastOperation := some Operation.idle, dir := "/tmp/uid-1" }
        { runOk := true, stderr := "", stdoutLines := [⟨true, some (0, 1)⟩] }).1 =
        PlanCallResult.ok (0 == 0) (1 == 0)) ∧
    (([⟨true, some (0, 1)⟩] : List PlanLine).find? lineIsChangeSummary = none →
      (Workspace.plan { lastOperation := some Operation.idle, dir := "/tmp/uid-1" }
        { runOk := true, stderr := "", stdoutLines := [⟨true, some (0, 1)⟩] }).1 =
        PlanCallResult.noChangeSummary) :=
  planReadsChangeSummary Operation.idle [⟨true, some (0, 1)⟩] ⟨true, some (0, 1)⟩ 0 1 rfl

/-- Claim C6: when the current operation already has type destroy —
running or finished — `Destroy` returns success immediately, leaves the
workspace unchanged and launches nothing, so two consecutive destroy calls
both succeed without a second process. -/
theorem destroyIdempotentOnType (w : Workspace) (op : Operation)
    (n1 n2 : Nat) (hop : w.lastOperation = some op)
    (ht : op.type = "destroy") :
    (w.destroy n1).1 = AsyncCallResult.okIdempotent ∧
    (w.destroy n1).2 = w ∧
    (((w.destroy n1).2).destroy n2).1 = AsyncCallResult.okIdempotent ∧
    (((w.destroy n1).2).destroy n2).2 = w := by
  have h1 : w.destroy n1 = (AsyncCallResult.okIdempotent, w) := by
    simp [Workspace.destroy, hop, ht]
  have h2 : w.destroy n2 = (AsyncCallResult.okIdempotent, w) := by
    simp [Workspace.destroy, hop, ht]
  simp [h1, h2]

/-- Witness for C6 at a workspace whose operation is a running destroy. -/
theorem destroyIdempotentOnTypeWitness :
    (wRunDestroyEx.destroy 3).1 = AsyncCallResult.okIdempotent ∧
    (wRunDestroyEx.destroy 3).2 = wRunDestroyEx ∧
    (((wRunDestroyEx.destroy 3).2).destroy 4).1 = AsyncCallResult.okIdempotent ∧
    (((wRunDestroyEx.destroy 3).2).destroy 4).2 = wRunDestroyEx :=
  destroyIdempotentOnType wRunDestroyEx runningDestroyOp 3 4 rfl rfl

/-- Claim C7: the spec requires the `main.tf.json` written during
workspace acquisition to embed the store's provider setup.  The store
builds the producer via `NewFileProducer`, which never assigns the
producer's `Setup` field, so the written configuration carries the zero
setup: at a store whose setup is non-zero, the written
`required_providers` source and version are empty and the provider
configuration block is empty, differing from the store's setup. -/
theorem storeSetupNotEmbeddedInMainTF :
    ((wsEx.acquire trEx).2.2).requiredProviderSource = "" ∧
    ((wsEx.acquire trEx).2.2).requiredProviderVersion = "" ∧
    ((wsEx.acquire trEx).2.2).providerConfiguration = [] ∧
    wsEx.setup.requirement.source = "hashicorp/null" ∧
    wsEx.setup.requirement.version = "3.1.0" ∧
    wsEx.setup.configuration = [("region", JSValue.str "us-east-1")] ∧
    ((wsEx.acquire trEx).2.2).requiredProviderSource ≠ wsEx.setup.requirement.source :=
  ⟨rfl, rfl, rfl, rfl, rfl, rfl, by decide⟩

/-- Counterexample to C8 as stated: calling `MainTF` before `TFState`
changes the result of `TFState` — at a concrete producer the attribute
maps differ, because `MainTF` wrote `prevent_destroy` into the producer's
cached parameters. -/
theorem buildStateChangedByPriorBuildConfig :
    tfStateAttrs ((fpEx.mainTF).2) ≠ tfStateAttrs fpEx := by
  intro h
  have h1 : Option.bind (tfStateAttrs ((fpEx.mainTF).2))
      (fun m => mapGet m "prevent_destroy") = some (JSValue.boolean true) := rfl
  rw [h] at h1
  have h2 : Option.bind (tfStateAttrs fpEx)
      (fun m => mapGet m "prevent_destroy") = none := rfl
  rw [h2] at h1
  exact Option.noConfusion h1

/-- Claim C8 amended: `TFState` has no effect on the producer, but
`MainTF`'s one effect on it is writing
`prevent_destroy = !markedForDeletion` into the cached parameters map; the
resource, observation and setup are untouched, and a later `TFState` sees
exactly the parameters with that one key inserted. -/
theorem mainTFEffectIsPreventDestroyInsert (fp : FileProducer) :
    (fp.mainTF).2 =
      { fp with
        parameters := mapSet fp.parameters "prevent_destroy"
          (JSValue.boolean (!fp.resource.wasDeleted)) } ∧
    (fp.mainTF).2.observation = fp.observation ∧
    (fp.mainTF).2.resource = fp.resource ∧
    (fp.mainTF).2.setup = fp.setup ∧
    ((fp.mainTF).2).tfState =
      FileProducer.tfState
        { fp with
          parameters := mapSet fp.parameters "prevent_destroy"
            (JSValue.boolean (!fp.resource.wasDeleted)) } :=
  ⟨rfl, rfl, rfl, rfl, rfl⟩

/-- Witness for the amended C8 at a concrete producer. -/
theorem mainTFEffectIsPreventDestroyInsertWitness :
    (fpEx.mainTF).2 =
      { fpEx with
        parameters := mapSet fpEx.parameters "prevent_destroy"
          (JSValue.boolean (!fpEx.resource.wasDeleted)) } ∧
    (fpEx.mainTF).2.observation = fpEx.observation ∧
    (fpEx.mainTF).2.resource = fpEx.resource ∧
    (fpEx.mainTF).2.setup = fpEx.setup ∧
    ((fpEx.mainTF).2).tfState =
      FileProducer.tfState
        { fpEx with
          parameters := mapSet fpEx.parameters "prevent_destroy"
            (JSValue.boolean (!fpEx.resource.wasDeleted)) } :=
  mainTFEffectIsPreventDestroyInsert fpEx

/-- Claim C9: when the external name and the prior-state annotation value
are both empty, `Observe` reports non-existence with no error, does not
call into the tf adapter (hence acquires no workspace and invokes no
provisioner), and sets no condition. -/
theorem observeEmptyReportsNotExists (tr : Resource)
    (tfRes : Except String TfObserveResult)
    (h1 : tr.externalName = "") (h2 : tr.stateAnno = "") :
    externalObserve tr tfRes =
      { result := Except.ok
          { resourceExists := false, resourceUpToDate := false
            resourceLateInitialized := false, connectionDetails := [] }
        tfObserveCalled := false
        conditionSetAvailable := false } := by
  simp [externalObserve, h1, h2]

/-- Witness for C9 at a concrete resource with empty external name and
empty prior-state annotation value. -/
theorem observeEmptyReportsNotExistsWitness :
    externalObserve trEmptyEx (Except.ok ⟨true, true, false, []⟩) =
      { result := Except.ok
          { resourceExists := false, resourceUpToDate := false
            resourceLateInitialized := false, connectionDetails := [] }
        tfObserveCalled := false
        conditionSetAvailable := false } :=
  observeEmptyReportsNotExists trEmptyEx (Except.ok ⟨true, true, false, []⟩) rfl rfl

/-- Claim C10: a workspace freshly created and registered by
`WorkspaceStore.Workspace` has a nil `LastOperation` pointer, and each of
the five public operations starts by dereferencing it, so its first call
on such a workspace reaches the nil-dereference outcome of the
embedding. -/
theorem freshWorkspaceNilOperationPanic (ws : WorkspaceStore) (tr : Resource)
    (now : Nat) (env : RunEnv) (penv : PlanEnv)
    (h : registryGet ws.registry tr.uid = none) :
    ((ws.acquire tr).1).lastOperation = none ∧
    (((ws.acquire tr).1).applyAsync now).1 = AsyncCallResult.panicNilOp ∧
    (((ws.acquire tr).1).apply env).1 = ApplyCallResult.panicNilOp ∧
    (((ws.acquire tr).1).destroy now).1 = AsyncCallResult.panicNilOp ∧
    (((ws.acquire tr).1).refresh env).1 = RefreshCallResult.panicNilOp ∧
    (((ws.acquire tr).1).plan penv).1 = PlanCallResult.panicNilOp := by
  have hw : (ws.acquire tr).1 = { lastOperation := none, dir := "/tmp/" ++ tr.uid } := by
    simp [WorkspaceStore.acquire, h]
  simp [hw, Workspace.applyAsync, Workspace.apply, Workspace.destroy,
    Workspace.refresh, Workspace.plan]

/-- Witness for C10 at a store with an empty registry. -/
theorem freshWorkspaceNilOperationPanicWitness :
    ((wsEx.acquire trEx).1).lastOperation = none ∧
    (((wsEx.acquire trEx).1).applyAsync 0).1 = AsyncCallResult.panicNilOp ∧
    (((wsEx.acquire trEx).1).apply envOkEx).1 = ApplyCallResult.panicNilOp ∧
    (((wsEx.acquire trEx).1).destroy 0).1 = AsyncCallResult.panicNilOp ∧
    (((wsEx.acquire trEx).1).refresh envOkEx).1 = RefreshCallResult.panicNilOp ∧
    (((wsEx.acquire trEx).1).plan planEnvEx).1 = PlanCallResult.panicNilOp :=
  freshWorkspaceNilOperationPanic wsEx trEx 0 envOkEx planEnvEx rfl

end Terrajet
